import Mathlib

/-!
Shallow embedding of `trunk/rba/data/subtilis_ref/generate_ref_model.py`.

Python strings are modelled as `List Char` (wrapped in Lean `String` at the
interface).  Python's `str.capitalize()` uppercases the first character and
lowercases the rest; the identifiers handled by this tool are ASCII, where
Python's titlecase map coincides with `Char.toUpper`.
-/

namespace RbaGen

/-- Python `s.capitalize()`: first character uppercased, the rest lowercased. -/
def pyCapitalize : List Char → List Char
  | [] => []
  | c :: rest => c.toUpper :: rest.map Char.toLower

/-- Python `s.startswith('m_')`. -/
def startsWith_m : List Char → Bool
  | c1 :: c2 :: _ => c1 == 'm' && c2 == '_'
  | _ => false

/-- Python `s.endswith('_xt')`: the final three characters equal `_xt`
(false when the string is shorter than three characters). -/
def endsWith_xt (s : List Char) : Bool :=
  s.drop (s.length - 3) == ['_', 'x', 't']

/-- Core of `metabolite_name` on character lists, mirroring the Python body:
keep non-`m_` names; for `..._xt` names drop the last three characters
(`s[:-3]`), capitalize, append `_e`; otherwise capitalize and append `_c`. -/
def metaboliteNameL (old_name : List Char) : List Char :=
  if startsWith_m old_name = false then old_name
  else if endsWith_xt old_name then
    pyCapitalize (old_name.take (old_name.length - 3)) ++ ['_', 'e']
  else
    pyCapitalize old_name ++ ['_', 'c']

/-- `metabolite_name(old_name)` from `generate_ref_model.py`. -/
def metabolite_name (old_name : String) : String :=
  ⟨metaboliteNameL old_name.data⟩

example : metabolite_name "atp" = "atp" := by decide
example : metabolite_name "m_atp" = "M_atp_c" := by decide
example : metabolite_name "m_glc_xt" = "M_glc_e" := by decide
example : metabolite_name "Glc_e" = "Glc_e" := by decide
example : metabolite_name "m_NAD" = "M_nad_c" := by decide
example : metabolite_name "m_a_xt" = "M_a_e" := by decide
example : metabolite_name "m_a_XT" = "M_a_xt_c" := by decide

lemma startsWith_m_cons_false (c : Char) (l : List Char) (h : c ≠ 'm') :
    startsWith_m (c :: l) = false := by
  cases l with
  | nil => rfl
  | cons c2 rest =>
    simp [startsWith_m]
    intro hc
    exact absurd hc h

lemma startsWith_m_shape (s : List Char) (h : startsWith_m s = true) :
    ∃ u, s = 'm' :: '_' :: u := by
  match s with
  | [] => simp [startsWith_m] at h
  | [c] => simp [startsWith_m] at h
  | c1 :: c2 :: rest =>
    simp [startsWith_m] at h
    exact ⟨rest, by rw [h.1, h.2]⟩

lemma endsWith_xt_take_shape (u : List Char)
    (h : endsWith_xt ('m' :: '_' :: u) = true) :
    ∃ v, ('m' :: '_' :: u).take (('m' :: '_' :: u).length - 3) = 'm' :: v := by
  match u with
  | [] => exact absurd h (by decide)
  | [c] => simp [endsWith_xt] at h
  | c :: c2 :: u2 =>
    have hl : ('m' :: '_' :: c :: c2 :: u2).length - 3 = u2.length + 1 := by
      simp only [List.length_cons]
      omega
    rw [hl, List.take_succ_cons]
    exact ⟨('_' :: c :: c2 :: u2).take u2.length, rfl⟩

lemma metaboliteNameL_pos_xt (s : List Char) (h1 : startsWith_m s = true)
    (h2 : endsWith_xt s = true) :
    metaboliteNameL s = pyCapitalize (s.take (s.length - 3)) ++ ['_', 'e'] := by
  simp [metaboliteNameL, h1, h2]

lemma metaboliteNameL_pos_c (s : List Char) (h1 : startsWith_m s = true)
    (h2 : endsWith_xt s = false) :
    metaboliteNameL s = pyCapitalize s ++ ['_', 'c'] := by
  simp [metaboliteNameL, h1, h2]

lemma metaboliteNameL_head (s : List Char) (h : startsWith_m s = true) :
    ∃ t, metaboliteNameL s = 'M' :: t := by
  obtain ⟨u, rfl⟩ := startsWith_m_shape s h
  cases hx : endsWith_xt ('m' :: '_' :: u) with
  | true =>
    obtain ⟨v, hv⟩ := endsWith_xt_take_shape u hx
    rw [metaboliteNameL_pos_xt _ h hx, hv]
    exact ⟨v.map Char.toLower ++ ['_', 'e'], by simp [pyCapitalize]⟩
  | false =>
    rw [metaboliteNameL_pos_c _ h hx]
    exact ⟨('_' :: u).map Char.toLower ++ ['_', 'c'], by simp [pyCapitalize]⟩

lemma metaboliteNameL_of_not_m (s : List Char) (h : startsWith_m s = false) :
    metaboliteNameL s = s := by
  simp [metaboliteNameL, h]

lemma pyCapitalize_congr (a b : List Char) (hhead : a.head? = b.head?)
    (h : a.map Char.toLower = b.map Char.toLower) :
    pyCapitalize a = pyCapitalize b := by
  match a, b with
  | [], [] => rfl
  | [], c :: l => simp at hhead
  | c :: l, [] => simp at hhead
  | c :: l, d :: k =>
    simp only [List.head?_cons, Option.some.injEq] at hhead
    simp only [List.map_cons, List.cons.injEq] at h
    subst hhead
    simp [pyCapitalize, h.2]

/-- **C7.** `metabolite_name` is idempotent, and is the identity on every
name not starting with `m_`. -/
theorem metabolite_name_idem (s : String) :
    metabolite_name (metabolite_name s) = metabolite_name s
      ∧ (startsWith_m s.data = false → metabolite_name s = s) := by
  constructor
  · cases hm : startsWith_m s.data with
    | false =>
      have h1 : metabolite_name s = s := by
        simp [metabolite_name, metaboliteNameL_of_not_m _ hm]
      rw [h1, h1]
    | true =>
      obtain ⟨t, ht⟩ := metaboliteNameL_head s.data hm
      have hM : startsWith_m ('M' :: t) = false :=
        startsWith_m_cons_false 'M' t (by decide)
      apply String.ext
      show metaboliteNameL (metaboliteNameL s.data) = metaboliteNameL s.data
      rw [ht, metaboliteNameL_of_not_m _ hM]
  · intro hm
    simp [metabolite_name, metaboliteNameL_of_not_m _ hm]

/-- Witness for C7 at concrete inputs. -/
theorem metabolite_name_idem_witness :
    metabolite_name (metabolite_name "m_glc_xt") = metabolite_name "m_glc_xt"
      ∧ metabolite_name "Glc_e" = "Glc_e" :=
  ⟨(metabolite_name_idem "m_glc_xt").1, (metabolite_name_idem "Glc_e").2 (by decide)⟩

/-- **C6, counterexample.** The claimed outputs `Atp_c` and `Glc_e` are wrong:
Python `capitalize` keeps the `m_` prefix, capitalizing its `m`. -/
theorem metabolite_name_examples_cex :
    metabolite_name "m_atp" ≠ "Atp_c" ∧ metabolite_name "m_glc_xt" ≠ "Glc_e" := by
  decide

/-- **C6, amended.** `metabolite_name` maps `m_atp` to `M_atp_c` and
`m_glc_xt` to `M_glc_e`: the `m_` prefix is retained with its first letter
capitalized, the rest of the name lowercased, and `_c` / `_e` appended. -/
theorem metabolite_name_examples :
    metabolite_name "m_atp" = "M_atp_c" ∧ metabolite_name "m_glc_xt" = "M_glc_e" := by
  decide

/-- **C10, counterexample.** Two metabolite ids that differ only in letter
case after the first character need not map to the same name: the `_xt`
suffix test is case-sensitive, so `m_a_xt` gains `_e` while `m_a_XT`
gains `_c`. -/
theorem metabolite_name_case_cex :
    startsWith_m "m_a_xt".data = true
      ∧ startsWith_m "m_a_XT".data = true
      ∧ "m_a_xt".data.map Char.toLower = "m_a_XT".data.map Char.toLower
      ∧ metabolite_name "m_a_xt" ≠ metabolite_name "m_a_XT" := by
  decide

/-- **C10, amended.** For ids starting with `m_` the result starts with `M`,
`m_NAD` maps to `M_nad_c`, and two metabolite ids differing only in letter
case after the first character map to the same name provided they agree on
whether they end (case-sensitively) with `_xt`. -/
theorem metabolite_name_case_fold (s t : String) :
    (startsWith_m s.data = true → (metabolite_name s).data.head? = some 'M')
      ∧ metabolite_name "m_NAD" = "M_nad_c"
      ∧ (startsWith_m s.data = true → startsWith_m t.data = true →
          s.data.map Char.toLower = t.data.map Char.toLower →
          endsWith_xt s.data = endsWith_xt t.data →
          metabolite_name s = metabolite_name t) := by
  refine ⟨?_, by decide, ?_⟩
  · intro hm
    obtain ⟨t2, ht2⟩ := metaboliteNameL_head s.data hm
    show (metaboliteNameL s.data).head? = some 'M'
    rw [ht2]
    rfl
  · intro hs ht hlow hxt
    apply String.ext
    show metaboliteNameL s.data = metaboliteNameL t.data
    have hlen : s.data.length = t.data.length := by
      have hc := congrArg List.length hlow
      simpa using hc
    cases hx : endsWith_xt s.data with
    | false =>
      have hx2 : endsWith_xt t.data = false := by rw [← hxt, hx]
      rw [metaboliteNameL_pos_c _ hs hx, metaboliteNameL_pos_c _ ht hx2]
      have hhead : s.data.head? = t.data.head? := by
        obtain ⟨u, hu⟩ := startsWith_m_shape _ hs
        obtain ⟨v, hv⟩ := startsWith_m_shape _ ht
        rw [hu, hv]
        rfl
      rw [pyCapitalize_congr _ _ hhead hlow]
    | true =>
      have hx2 : endsWith_xt t.data = true := by rw [← hxt, hx]
      rw [metaboliteNameL_pos_xt _ hs hx, metaboliteNameL_pos_xt _ ht hx2]
      have hmap : (s.data.take (s.data.length - 3)).map Char.toLower
          = (t.data.take (t.data.length - 3)).map Char.toLower := by
        rw [List.map_take, List.map_take, hlow, hlen]
      have hhead : (s.data.take (s.data.length - 3)).head?
          = (t.data.take (t.data.length - 3)).head? := by
        obtain ⟨u, hu⟩ := startsWith_m_shape _ hs
        obtain ⟨v, hv⟩ := startsWith_m_shape _ ht
        have hxu : endsWith_xt ('m' :: '_' :: u) = true := by rw [← hu]; exact hx
        have hxv : endsWith_xt ('m' :: '_' :: v) = true := by rw [← hv]; exact hx2
        obtain ⟨w1, hw1⟩ := endsWith_xt_take_shape u hxu
        obtain ⟨w2, hw2⟩ := endsWith_xt_take_shape v hxv
        rw [hu, hv, hw1, hw2]
        rfl
      rw [pyCapitalize_congr _ _ hhead hmap]

/-- Witness for C10 at concrete inputs. -/
theorem metabolite_name_case_fold_witness :
    (metabolite_name "m_Abc").data.head? = some 'M'
      ∧ metabolite_name "m_NAD" = "M_nad_c"
      ∧ metabolite_name "m_Abc" = metabolite_name "m_ABC" :=
  ⟨(metabolite_name_case_fold "m_Abc" "m_ABC").1 (by decide),
   (metabolite_name_case_fold "m_Abc" "m_ABC").2.1,
   (metabolite_name_case_fold "m_Abc" "m_ABC").2.2
     (by decide) (by decide) (by decide) (by decide)⟩

/-!
## Value resolution (`read_value`)

An old-style value node may carry a `value` attribute and `functionReference`
child elements, each with a `function` attribute.  XML attribute lookup
(`node.get(...)`) yields `Option String`.  Mutation of the shared
`parameters` object is modelled by returning the updated registry.
-/

/-- A `functionReference` child element (its `function` attribute). -/
structure FnRefNode where
  function : Option String
  deriving Repr, DecidableEq

/-- An old-style value node: optional `value` attribute plus the
`functionReference` children in source order. -/
structure ValueNode where
  value : Option String
  fn_refs : List FnRefNode
  deriving Repr, DecidableEq

/-- `rba_xml.FunctionReference`. -/
structure FunctionReference where
  function : Option String
  deriving Repr, DecidableEq

/-- `rba_xml.Aggregate`: constructed as `Aggregate(aggregate_name,
'multiplication')` and then filled with function references. -/
structure Aggregate where
  id : String
  operator : String
  function_references : List FunctionReference
  deriving Repr, DecidableEq

/-- `rba_xml.TargetDensity` (only the fields this script touches). -/
structure TargetDensity where
  compartment : String
  upper_bound : Option String
  deriving Repr, DecidableEq

/-- `rba_xml.RbaParameters`: the script touches `target_densities`,
`functions` (an external list object, kept opaque as ids) and
`aggregates`. -/
structure RbaParameters where
  target_densities : List TargetDensity
  functions : List String
  aggregates : List Aggregate
  deriving Repr, DecidableEq

/-- `read_value(node, aggregate_name, parameters)`: returns the resolved
value together with the (possibly mutated) parameter registry. -/
def read_value (node : ValueNode) (aggregate_name : String)
    (parameters : RbaParameters) : Option String × RbaParameters :=
  match node.value with
  | some value => (some value, parameters)
  | none =>
    match node.fn_refs with
    | [r] => (r.function, parameters)
    | fn_refs =>
      let new_agg : Aggregate :=
        { id := aggregate_name
          operator := "multiplication"
          function_references := fn_refs.map (fun r => ⟨r.function⟩) }
      (some aggregate_name,
       { parameters with aggregates := parameters.aggregates ++ [new_agg] })

/-- **C1.** A value node with no `value` attribute and two or more function
references makes `read_value` append exactly one new aggregate — named by
the hint, operator `multiplication`, one `FunctionReference` per child in
source order — and return the hint. -/
theorem read_value_multi (node : ValueNode) (hint : String) (ps : RbaParameters)
    (hv : node.value = none) (hn : 2 ≤ node.fn_refs.length) :
    read_value node hint ps =
      (some hint,
       { ps with aggregates := ps.aggregates ++
           [{ id := hint
              operator := "multiplication"
              function_references := node.fn_refs.map (fun r => ⟨r.function⟩) }] }) := by
  match hr : node.fn_refs with
  | [] => rw [hr] at hn; exact absurd hn (by decide)
  | [r] => rw [hr] at hn; simp at hn
  | r1 :: r2 :: rest => simp [read_value, hv, hr]

/-- Witness for C1 at a concrete node with two function references. -/
theorem read_value_multi_witness :
    read_value ⟨none, [⟨some "F1"⟩, ⟨some "F2"⟩]⟩ "X_flux" ⟨[], [], []⟩ =
      (some "X_flux",
       ⟨[], [], [⟨"X_flux", "multiplication", [⟨some "F1"⟩, ⟨some "F2"⟩]⟩]⟩) :=
  read_value_multi ⟨none, [⟨some "F1"⟩, ⟨some "F2"⟩]⟩ "X_flux" ⟨[], [], []⟩
    rfl (by decide)

/-- **C2.** A node with a `value` attribute resolves to it verbatim; a node
with no `value` attribute and exactly one function reference resolves to
that reference's function name.  In both cases the registry is returned
unchanged (zero new aggregates). -/
theorem read_value_simple (node : ValueNode) (hint : String) (ps : RbaParameters) :
    (∀ v, node.value = some v → read_value node hint ps = (some v, ps))
      ∧ (∀ r, node.value = none → node.fn_refs = [r] →
          read_value node hint ps = (r.function, ps)) := by
  constructor
  · intro v hv
    simp [read_value, hv]
  · intro r hv hr
    simp [read_value, hv, hr]

/-- Witness for C2 at concrete nodes. -/
theorem read_value_simple_witness :
    read_value ⟨some "5.0", []⟩ "hint" ⟨[], [], []⟩ = (some "5.0", ⟨[], [], []⟩)
      ∧ read_value ⟨none, [⟨some "F1"⟩]⟩ "hint" ⟨[], [], []⟩ =
          (some "F1", ⟨[], [], []⟩) :=
  ⟨(read_value_simple ⟨some "5.0", []⟩ "hint" ⟨[], [], []⟩).1 "5.0" rfl,
   (read_value_simple ⟨none, [⟨some "F1"⟩]⟩ "hint" ⟨[], [], []⟩).2 ⟨some "F1"⟩ rfl rfl⟩

/-- **C3, counterexample.** On a node with neither a `value` attribute nor
any function reference, `read_value` does not fail: it silently appends an
empty aggregate to the registry and returns the hint. -/
theorem read_value_empty_cex :
    read_value ⟨none, []⟩ "agg" ⟨[], [], []⟩ =
      (some "agg", ⟨[], [], [⟨"agg", "multiplication", []⟩]⟩) := by
  rfl

/-- **C3, amended.** On a node with neither a `value` attribute nor any
function reference, `read_value` appends one empty aggregate (hint name,
operator `multiplication`, no function references) and returns the hint;
no error is raised. -/
theorem read_value_empty (node : ValueNode) (hint : String) (ps : RbaParameters)
    (hv : node.value = none) (hr : node.fn_refs = []) :
    read_value node hint ps =
      (some hint,
       { ps with aggregates := ps.aggregates ++
           [{ id := hint, operator := "multiplication", function_references := [] }] }) := by
  simp [read_value, hv, hr]

/-- Witness for C3 (amended) at a concrete node and nonempty registry. -/
theorem read_value_empty_witness :
    read_value ⟨none, []⟩ "c_density" ⟨[], [], [⟨"old", "multiplication", []⟩]⟩ =
      (some "c_density",
       ⟨[], [], [⟨"old", "multiplication", []⟩, ⟨"c_density", "multiplication", []⟩]⟩) :=
  read_value_empty ⟨none, []⟩ "c_density" ⟨[], [], [⟨"old", "multiplication", []⟩]⟩
    rfl rfl

/-!
## Target classification (`read_processes`, targets loop)
-/

/-- `rba_xml.TargetSpecies`: a species id plus its resolved value. -/
structure TargetSpecies where
  species : String
  value : Option String
  deriving Repr, DecidableEq

/-- `rba_xml.TargetReaction`: a reaction id plus the fields this script
sets (`value` for converted targets, `lower_bound` for the synthesized
maintenance-ATP target). -/
structure TargetReaction where
  reaction : String
  value : Option String
  lower_bound : Option String
  deriving Repr, DecidableEq

/-- `rba_xml.Targets`: the four target buckets of a process. -/
structure Targets where
  concentrations : List TargetSpecies
  production_fluxes : List TargetSpecies
  degradation_fluxes : List TargetSpecies
  reaction_fluxes : List TargetReaction
  deriving Repr, DecidableEq

/-- A `targetValue` XML element: its `species` attribute, the two
boolean-like classification attributes, and the value payload handed to
`read_value` (in the XML these live on the same element). -/
structure TargetValueNode where
  species : String
  degradation : Option String
  dilution_compensation : Option String
  vnode : ValueNode
  deriving Repr, DecidableEq

/-- The `TargetSpecies` built for one `targetValue` node. -/
def targetEntry (t : TargetValueNode) (parameters : RbaParameters) : TargetSpecies :=
  ⟨t.species, (read_value t.vnode (t.species ++ "_concentration") parameters).1⟩

/-- One iteration of the `targets/targetValue` loop in `read_processes`:
build the target, resolve its value, and append it to exactly one bucket
following the `degradation` / `dilution_compensation` priority chain. -/
def read_targetValue (t : TargetValueNode) (tg : Targets)
    (parameters : RbaParameters) : Targets × RbaParameters :=
  let res := read_value t.vnode (t.species ++ "_concentration") parameters
  let new_t : TargetSpecies := { species := t.species, value := res.1 }
  if t.degradation = some "1" then
    ({ tg with degradation_fluxes := tg.degradation_fluxes ++ [new_t] }, res.2)
  else if t.dilution_compensation = some "0" then
    ({ tg with production_fluxes := tg.production_fluxes ++ [new_t] }, res.2)
  else
    ({ tg with concentrations := tg.concentrations ++ [new_t] }, res.2)

/-- **C4.** Strict three-way priority chain: `degradation == "1"` sends the
target to the degradation bucket regardless of `dilution_compensation`;
otherwise `dilution_compensation == "0"` sends it to the production bucket;
otherwise (including absent attributes) it lands in the concentrations
bucket.  In each case the other buckets are unchanged. -/
theorem targetValue_classification (t : TargetValueNode) (tg : Targets)
    (ps : RbaParameters) :
    (t.degradation = some "1" →
      (read_targetValue t tg ps).1 =
        { tg with degradation_fluxes := tg.degradation_fluxes ++ [targetEntry t ps] })
      ∧ (t.degradation ≠ some "1" → t.dilution_compensation = some "0" →
          (read_targetValue t tg ps).1 =
            { tg with production_fluxes := tg.production_fluxes ++ [targetEntry t ps] })
      ∧ (t.degradation ≠ some "1" → t.dilution_compensation ≠ some "0" →
          (read_targetValue t tg ps).1 =
            { tg with concentrations := tg.concentrations ++ [targetEntry t ps] }) := by
  refine ⟨?_, ?_, ?_⟩
  · intro h1
    simp [read_targetValue, targetEntry, h1]
  · intro h1 h2
    simp [read_targetValue, targetEntry, h1, h2]
  · intro h1 h2
    simp [read_targetValue, targetEntry, h1, h2]

/-- Witness for C4: a node carrying both flags goes to the degradation
bucket (precedence), one with only `dilution_compensation="0"` to the
production bucket, and one with neither to the concentrations bucket. -/
theorem targetValue_classification_witness :
    (read_targetValue ⟨"s1", some "1", some "0", ⟨some "0.1", []⟩⟩
        ⟨[], [], [], []⟩ ⟨[], [], []⟩).1 =
      ⟨[], [], [⟨"s1", some "0.1"⟩], []⟩
      ∧ (read_targetValue ⟨"s2", none, some "0", ⟨some "0.2", []⟩⟩
          ⟨[], [], [], []⟩ ⟨[], [], []⟩).1 =
        ⟨[], [⟨"s2", some "0.2"⟩], [], []⟩
      ∧ (read_targetValue ⟨"s3", none, none, ⟨some "0.3", []⟩⟩
          ⟨[], [], [], []⟩ ⟨[], [], []⟩).1 =
        ⟨[⟨"s3", some "0.3"⟩], [], [], []⟩ :=
  ⟨(targetValue_classification ⟨"s1", some "1", some "0", ⟨some "0.1", []⟩⟩
      ⟨[], [], [], []⟩ ⟨[], [], []⟩).1 rfl,
   (targetValue_classification ⟨"s2", none, some "0", ⟨some "0.2", []⟩⟩
      ⟨[], [], [], []⟩ ⟨[], [], []⟩).2.1 (by decide) rfl,
   (targetValue_classification ⟨"s3", none, none, ⟨some "0.3", []⟩⟩
      ⟨[], [], [], []⟩ ⟨[], [], []⟩).2.2 (by decide) (by decide)⟩

/-!
## The assembled model and the `__main__` pipeline

The section readers perform file I/O and straight structural transcription
through external `rba_xml` classes; the pipeline below operates on the
in-memory model they produce.  Numeric payloads (stoichiometries) are
irrelevant to the claims and carried through unchanged.
-/

/-- `rba_xml.SpeciesReference`: species id plus stoichiometry. -/
structure SpeciesReference where
  species : String
  stoichiometry : Int
  deriving Repr, DecidableEq

/-- `rba_xml.Species`. -/
structure Species where
  id : String
  boundary_condition : Bool
  deriving Repr, DecidableEq

/-- `rba_xml.Reaction` with its reactant and product references. -/
structure Reaction where
  id : String
  reversible : Bool
  reactants : List SpeciesReference
  products : List SpeciesReference
  deriving Repr, DecidableEq

/-- `rba_xml.RbaMetabolism`. -/
structure RbaMetabolism where
  compartments : List String
  species : List Species
  reactions : List Reaction
  deriving Repr, DecidableEq

/-- `rba_xml.MachineryComposition` (reactant and product references). -/
structure MachineryComposition where
  reactants : List SpeciesReference
  products : List SpeciesReference
  deriving Repr, DecidableEq

/-- One function of a `TransporterEfficiency`; the renaming pass rewrites
its `variable` attribute. -/
structure TransporterFunction where
  «variable» : String
  deriving Repr, DecidableEq

/-- `rba_xml.EnzymaticActivity` (only the field the pipeline rewrites). -/
structure EnzymaticActivity where
  transporter_efficiency : List TransporterFunction
  deriving Repr, DecidableEq

/-- `rba_xml.Enzyme`. -/
structure Enzyme where
  id : String
  zero_cost : Bool
  machinery_composition : MachineryComposition
  enzymatic_activity : EnzymaticActivity
  deriving Repr, DecidableEq

/-- `rba_xml.RbaEnzymes` (the efficiency-function list is external and
never rewritten; it is omitted). -/
structure RbaEnzymes where
  enzymes : List Enzyme
  deriving Repr, DecidableEq

/-- `rba_xml.Machinery` (of a process). -/
structure Machinery where
  machinery_composition : MachineryComposition
  deriving Repr, DecidableEq

/-- `rba_xml.Process`. -/
structure Process where
  id : String
  name : String
  machinery : Machinery
  targets : Targets
  deriving Repr, DecidableEq

/-- `rba_xml.ConstantCost` of a component map. -/
structure ConstantCost where
  reactants : List SpeciesReference
  products : List SpeciesReference
  deriving Repr, DecidableEq

/-- `rba_xml.Cost` of a component map. -/
structure Cost where
  reactants : List SpeciesReference
  products : List SpeciesReference
  deriving Repr, DecidableEq

/-- `rba_xml.ComponentMap`. -/
structure ComponentMap where
  id : String
  constant_cost : ConstantCost
  costs : List Cost
  deriving Repr, DecidableEq

/-- `rba_xml.RbaProcesses`. -/
structure RbaProcesses where
  processes : List Process
  component_maps : List ComponentMap
  deriving Repr, DecidableEq

/-- A macromolecule section (proteins, rnas, dna): carried through the
pipeline untouched; kept opaque as id lists. -/
structure RbaMacromolecules where
  components : List String
  macromolecules : List String
  deriving Repr, DecidableEq

/-- `rba.RbaModel` as populated by the readers (the medium, read last from
a tsv file, carries no species references and is omitted). -/
structure RbaModel where
  metabolism : RbaMetabolism
  parameters : RbaParameters
  proteins : RbaMacromolecules
  rnas : RbaMacromolecules
  dna : RbaMacromolecules
  enzymes : RbaEnzymes
  processes : RbaProcesses
  deriving Repr, DecidableEq

/-- Rewrite one species reference with `metabolite_name`. -/
def normalizeSR (sr : SpeciesReference) : SpeciesReference :=
  { sr with species := metabolite_name sr.species }

/-- The `## adapt metabolite names` block of `__main__`: one walk rewriting
species identifiers with `metabolite_name`.  The enzyme loop visits
`machinery_composition.reactants` and the transporter-efficiency variables
only — not `machinery_composition.products`. -/
def normalizePass (model : RbaModel) : RbaModel :=
  { model with
    metabolism :=
      { model.metabolism with
        species := model.metabolism.species.map
          (fun m => { m with id := metabolite_name m.id })
        reactions := model.metabolism.reactions.map
          (fun r => { r with
            reactants := r.reactants.map normalizeSR
            products := r.products.map normalizeSR }) }
    enzymes :=
      { enzymes := model.enzymes.enzymes.map
          (fun e => { e with
            machinery_composition :=
              { e.machinery_composition with
                reactants := e.machinery_composition.reactants.map normalizeSR }
            enzymatic_activity :=
              { transporter_efficiency :=
                  e.enzymatic_activity.transporter_efficiency.map
                    (fun fn => { fn with
                      «variable» := metabolite_name fn.«variable» }) } }) }
    processes :=
      { processes := model.processes.processes.map
          (fun p => { p with
            machinery :=
              { machinery_composition :=
                  { reactants :=
                      p.machinery.machinery_composition.reactants.map normalizeSR
                    products :=
                      p.machinery.machinery_composition.products.map normalizeSR } }
            targets :=
              { p.targets with
                concentrations := p.targets.concentrations.map
                  (fun t => { t with species := metabolite_name t.species })
                production_fluxes := p.targets.production_fluxes.map
                  (fun t => { t with species := metabolite_name t.species })
                degradation_fluxes := p.targets.degradation_fluxes.map
                  (fun t => { t with species := metabolite_name t.species }) } })
        component_maps := model.processes.component_maps.map
          (fun m => { m with
            constant_cost :=
              { reactants := m.constant_cost.reactants.map normalizeSR
                products := m.constant_cost.products.map normalizeSR }
            costs := m.costs.map
              (fun c => { reactants := c.reactants.map normalizeSR
                          products := c.products.map normalizeSR }) }) } }

/-- The three hard-coded substitutions of the
`# change metabolite names where necessary` loop. -/
def patchSpecies (s : String) : String :=
  if s = "m_siroheme" then "m_sheme"
  else if s = "m_biotin" then "m_bio"
  else if s = "m_b6" then "m_py5p"
  else s

/-- The `# change metabolite names where necessary` loop of `__main__`:
applies the three substitutions to every enzyme machinery-composition
reactant (and nowhere else). -/
def applyPatches (model : RbaModel) : RbaModel :=
  { model with
    enzymes :=
      { enzymes := model.enzymes.enzymes.map
          (fun e => { e with
            machinery_composition :=
              { e.machinery_composition with
                reactants := e.machinery_composition.reactants.map
                  (fun sr => { sr with species := patchSpecies sr.species }) } }) } }

/-- The synthesized maintenance-ATP process (`## add maintenance ATP`). -/
def p_atpm : Process :=
  { id := "P_maintenance_atp"
    name := "Maintenance ATP"
    machinery := { machinery_composition := { reactants := [], products := [] } }
    targets :=
      { concentrations := []
        production_fluxes := []
        degradation_fluxes := []
        reaction_fluxes := [{ reaction := "Eatpm", value := none,
                              lower_bound := some "maintenanceATP" }] } }

/-- The `__main__` pipeline on the model produced by the readers: the three
hard-coded patches, then the renaming pass, then the maintenance-ATP
injection.  (In the script the patch loop runs between reading enzymes and
reading processes; it touches only enzymes, so it commutes with the
remaining readers.) -/
def assembleMain (model : RbaModel) : RbaModel :=
  let m2 := normalizePass (applyPatches model)
  { m2 with
    processes :=
      { m2.processes with processes := m2.processes.processes ++ [p_atpm] } }

/-- A fully empty model, the base for concrete instances. -/
def emptyModel : RbaModel :=
  { metabolism := { compartments := [], species := [], reactions := [] }
    parameters := { target_densities := [], functions := [], aggregates := [] }
    proteins := { components := [], macromolecules := [] }
    rnas := { components := [], macromolecules := [] }
    dna := { components := [], macromolecules := [] }
    enzymes := { enzymes := [] }
    processes := { processes := [], component_maps := [] } }

/-- **C5, counterexample.** The renaming pass misses enzyme
machinery-composition *product* species references: on a model whose only
species reference is the product `m_atp` of an enzyme, the pass leaves it
as `m_atp`, although the normalizer rewrites `m_atp`. -/
theorem normalizePass_misses_enzyme_products_cex :
    ((normalizePass
        { emptyModel with
          enzymes :=
            { enzymes := [{ id := "E1"
                            zero_cost := false
                            machinery_composition :=
                              { reactants := [], products := [⟨"m_atp", 1⟩] }
                            enzymatic_activity :=
                              { transporter_efficiency := [] } }] } }).enzymes.enzymes.map
        (fun e => e.machinery_composition.products.map (fun sr => sr.species)))
        = [["m_atp"]]
      ∧ metabolite_name "m_atp" ≠ "m_atp" := by
  exact ⟨rfl, by decide⟩

/-- **C5, amended.** The renaming pass rewrites, in order, every species
identifier in: species definitions, reaction reactant/product references,
enzyme machinery-composition *reactant* references, transporter-efficiency
variable names, process machinery-composition reactant/product references,
the three species-target buckets, and cost-map constant-cost/cost
reactant/product references — but it leaves enzyme machinery-composition
*product* references unchanged. -/
theorem normalizePass_coverage (m : RbaModel) :
    ((normalizePass m).metabolism.species.map (fun s => s.id)
        = m.metabolism.species.map (fun s => metabolite_name s.id))
      ∧ ((normalizePass m).metabolism.reactions.map
            (fun r => r.reactants.map (fun sr => sr.species))
          = m.metabolism.reactions.map
              (fun r => r.reactants.map (fun sr => metabolite_name sr.species)))
      ∧ ((normalizePass m).metabolism.reactions.map
            (fun r => r.products.map (fun sr => sr.species))
          = m.metabolism.reactions.map
              (fun r => r.products.map (fun sr => metabolite_name sr.species)))
      ∧ ((normalizePass m).enzymes.enzymes.map
            (fun e => e.machinery_composition.reactants.map (fun sr => sr.species))
          = m.enzymes.enzymes.map
              (fun e => e.machinery_composition.reactants.map
                (fun sr => metabolite_name sr.species)))
      ∧ ((normalizePass m).enzymes.enzymes.map
            (fun e => e.enzymatic_activity.transporter_efficiency.map
              (fun fn => fn.«variable»))
          = m.enzymes.enzymes.map
              (fun e => e.enzymatic_activity.transporter_efficiency.map
                (fun fn => metabolite_name fn.«variable»)))
      ∧ ((normalizePass m).processes.processes.map
            (fun p => p.machinery.machinery_composition.reactants.map
              (fun sr => sr.species))
          = m.processes.processes.map
              (fun p => p.machinery.machinery_composition.reactants.map
                (fun sr => metabolite_name sr.species)))
      ∧ ((normalizePass m).processes.processes.map
            (fun p => p.machinery.machinery_composition.products.map
              (fun sr => sr.species))
          = m.processes.processes.map
              (fun p => p.machinery.machinery_composition.products.map
                (fun sr => metabolite_name sr.species)))
      ∧ ((normalizePass m).processes.processes.map
            (fun p => p.targets.concentrations.map (fun t => t.species))
          = m.processes.processes.map
              (fun p => p.targets.concentrations.map
                (fun t => metabolite_name t.species)))
      ∧ ((normalizePass m).processes.processes.map
            (fun p => p.targets.production_fluxes.map (fun t => t.species))
          = m.processes.processes.map
              (fun p => p.targets.production_fluxes.map
                (fun t => metabolite_name t.species)))
      ∧ ((normalizePass m).processes.processes.map
            (fun p => p.targets.degradation_fluxes.map (fun t => t.species))
          = m.processes.processes.map
              (fun p => p.targets.degradation_fluxes.map
                (fun t => metabolite_name t.species)))
      ∧ ((normalizePass m).processes.component_maps.map
            (fun cm => cm.constant_cost.reactants.map (fun sr => sr.species))
          = m.processes.component_maps.map
              (fun cm => cm.constant_cost.reactants.map
                (fun sr => metabolite_name sr.species)))
      ∧ ((normalizePass m).processes.component_maps.map
            (fun cm => cm.constant_cost.products.map (fun sr => sr.species))
          = m.processes.component_maps.map
              (fun cm => cm.constant_cost.products.map
                (fun sr => metabolite_name sr.species)))
      ∧ ((normalizePass m).processes.component_maps.map
            (fun cm => cm.costs.map (fun c => c.reactants.map (fun sr => sr.species)))
          = m.processes.component_maps.map
              (fun cm => cm.costs.map
                (fun c => c.reactants.map (fun sr => metabolite_name sr.species))))
      ∧ ((normalizePass m).processes.component_maps.map
            (fun cm => cm.costs.map (fun c => c.products.map (fun sr => sr.species)))
          = m.processes.component_maps.map
              (fun cm => cm.costs.map
                (fun c => c.products.map (fun sr => metabolite_name sr.species))))
      ∧ ((normalizePass m).enzymes.enzymes.map
            (fun e => e.machinery_composition.products)
          = m.enzymes.enzymes.map (fun e => e.machinery_composition.products)) := by
  refine ⟨?_, ?_, ?_, ?_, ?_, ?_, ?_, ?_, ?_, ?_, ?_, ?_, ?_, ?_, ?_⟩ <;>
    simp [normalizePass, normalizeSR, List.map_map, Function.comp]

/-- **C8.** The three hard-coded substitutions are applied to every enzyme
machinery-composition reactant, touch nothing else in the model, and run
strictly before the renaming pass: in the pipeline output every enzyme
reactant is `metabolite_name (patchSpecies ·)` of the original, an order
that matters because the substitutions match the un-normalized ids only. -/
theorem patches_enzyme_reactants_only (m : RbaModel) :
    ((applyPatches m).enzymes.enzymes.map
        (fun e => e.machinery_composition.reactants.map (fun sr => sr.species))
      = m.enzymes.enzymes.map
          (fun e => e.machinery_composition.reactants.map
            (fun sr => patchSpecies sr.species)))
      ∧ (applyPatches m).metabolism = m.metabolism
      ∧ (applyPatches m).parameters = m.parameters
      ∧ (applyPatches m).proteins = m.proteins
      ∧ (applyPatches m).rnas = m.rnas
      ∧ (applyPatches m).dna = m.dna
      ∧ (applyPatches m).processes = m.processes
      ∧ ((applyPatches m).enzymes.enzymes.map (fun e => e.id)
          = m.enzymes.enzymes.map (fun e => e.id))
      ∧ ((applyPatches m).enzymes.enzymes.map (fun e => e.zero_cost)
          = m.enzymes.enzymes.map (fun e => e.zero_cost))
      ∧ ((applyPatches m).enzymes.enzymes.map
            (fun e => e.machinery_composition.products)
          = m.enzymes.enzymes.map (fun e => e.machinery_composition.products))
      ∧ ((applyPatches m).enzymes.enzymes.map (fun e => e.enzymatic_activity)
          = m.enzymes.enzymes.map (fun e => e.enzymatic_activity))
      ∧ ((assembleMain m).enzymes.enzymes.map
            (fun e => e.machinery_composition.reactants.map (fun sr => sr.species))
          = m.enzymes.enzymes.map
              (fun e => e.machinery_composition.reactants.map
                (fun sr => metabolite_name (patchSpecies sr.species))))
      ∧ metabolite_name (patchSpecies "m_siroheme")
          ≠ patchSpecies (metabolite_name "m_siroheme")
      ∧ metabolite_name (patchSpecies "m_siroheme") = "M_sheme_c"
      ∧ metabolite_name (patchSpecies "m_biotin") = "M_bio_c"
      ∧ metabolite_name (patchSpecies "m_b6") = "M_py5p_c" := by
  refine ⟨?_, rfl, rfl, rfl, rfl, rfl, rfl, ?_, ?_, ?_, ?_, ?_,
    by decide, by decide, by decide, by decide⟩ <;>
    simp [applyPatches, assembleMain, normalizePass, normalizeSR,
      List.map_map, Function.comp]

/-- **C9.** The pipeline appends exactly one process, after the renaming
pass: the output process list is the normalized list followed by the
synthesized `P_maintenance_atp`, whose targets hold exactly one
reaction-flux target `Eatpm` with lower bound `maintenanceATP`. -/
theorem maintenance_atp_appended (m : RbaModel) :
    ((assembleMain m).processes.processes
        = (normalizePass (applyPatches m)).processes.processes ++ [p_atpm])
      ∧ (assembleMain m).processes.processes.getLast? = some p_atpm
      ∧ (assembleMain m).processes.processes.length
          = m.processes.processes.length + 1
      ∧ p_atpm.id = "P_maintenance_atp"
      ∧ p_atpm.targets.reaction_fluxes
          = [{ reaction := "Eatpm", value := none,
               lower_bound := some "maintenanceATP" }]
      ∧ p_atpm.targets.concentrations = []
      ∧ p_atpm.targets.production_fluxes = []
      ∧ p_atpm.targets.degradation_fluxes = [] := by
  refine ⟨rfl, ?_, ?_, rfl, rfl, rfl, rfl, rfl⟩
  · exact List.getLast?_concat _
  · simp [assembleMain, normalizePass, applyPatches]

end RbaGen
